import Mathlib

/-
Verification of the signature module of pi_crypto (src/signature.rs).

The module is a thin wrapper over two external cryptography backends:
the rust-secp256k1 bindings (ECDSA over secp256k1) and ring (RSA).
The wrapper's own logic — argument parsing order, panic points (`.unwrap()`),
padding-variant dispatch, buffer handling, and which failures are swallowed —
is embedded faithfully below.  The external backends are out of scope of the
repository (the spec delegates elliptic-curve and RSA math to external
libraries), so they are modelled as abstract structures of functions; the
contracts the backends document (e.g. 32-byte length checks in
SecretKey::from_slice) appear as hypotheses of the theorems, and concrete toy
backends instantiate them for witnesses.

Rust `panic!` (from `.unwrap()` on an Err/None) is modelled as `Option.none`:
the operation aborts and produces no return value.  Rust `Result<T, E>` with
the error value discarded is modelled as `Option T`; where the source calls
`.is_ok()` the backend function returns `Except Unit Unit` and the wrapper
converts with `exceptIsOk`, mirroring the source line.
-/

/-- Byte strings; each entry is one byte value. -/
abbrev Bytes := List Nat

/-- Model of Rust's `Result::is_ok`. -/
def exceptIsOk : Except Unit Unit → Bool
  | Except.ok _ => true
  | Except.error _ => false

/-- Abstract model of the rust-secp256k1 backend used by `ECDSASecp256k1`:
the context object `Secp256k1` together with the library functions the wrapper
calls.  Parse functions return `none` where the library returns `Err` (the
wrapper `.unwrap()`s these).  `from_secret_key` and `publicKey_serialize`
model the library's `PublicKey::from_secret_key` / SEC1 serialization, which
the spec's `derive_public` refers to. -/
structure SecpCtx where
  SK : Type
  Msg : Type
  Sig : Type
  PK : Type
  secretKey_from_slice : Bytes → Option SK
  message_from_slice : Bytes → Option Msg
  publicKey_from_slice : Bytes → Option PK
  signature_from_der : Bytes → Option Sig
  ctxSign : Msg → SK → Option Sig
  serialize_der : Sig → Bytes
  verify_res : Msg → Sig → PK → Except Unit Unit
  from_secret_key : SK → PK
  publicKey_serialize : PK → Bytes

/-- `pub struct ECDSASecp256k1 { ctx: Secp256k1 }` -/
structure ECDSASecp256k1 where
  ctx : SecpCtx

/-- `ECDSASecp256k1::sign` (src/signature.rs:22–27): parses the secret key,
then the 32-byte message, signs, and DER-serializes; every parse or sign
failure is `.unwrap()`ed, i.e. a panic, modelled as `none`. -/
def ECDSASecp256k1.sign (self : ECDSASecp256k1) (msg sk : Bytes) : Option Bytes :=
  match self.ctx.secretKey_from_slice sk with
  | none => none
  | some skv =>
    match self.ctx.message_from_slice msg with
    | none => none
    | some m =>
      match self.ctx.ctxSign m skv with
      | none => none
      | some s => some (self.ctx.serialize_der s)

/-- `ECDSASecp256k1::verify` (src/signature.rs:33–39): parses the message,
the public key, then the DER signature (each `.unwrap()`ed → panic on
malformed input, modelled as `none`), then returns `ctx.verify(...).is_ok()`. -/
def ECDSASecp256k1.verify (self : ECDSASecp256k1) (msg sig pk : Bytes) : Option Bool :=
  match self.ctx.message_from_slice msg with
  | none => none
  | some m =>
    match self.ctx.publicKey_from_slice pk with
    | none => none
    | some p =>
      match self.ctx.signature_from_der sig with
      | none => none
      | some s => some (exceptIsOk (self.ctx.verify_res m s p))

/-- `pub enum PaddingAlg` (src/signature.rs:42–52). -/
inductive PaddingAlg where
  | RSA_PKCS1_SHA256
  | RSA_PKCS1_SHA384
  | RSA_PKCS1_SHA512
  | RSA_PSS_SHA256
  | RSA_PSS_SHA384
  | RSA_PSS_SHA512
deriving DecidableEq, Repr

/-- The ring signing-scheme constants passed to `RsaKeyPair::sign`
(`signature::RSA_PKCS1_SHA256`, …). -/
inductive SignAlg where
  | RSA_PKCS1_SHA256
  | RSA_PKCS1_SHA384
  | RSA_PKCS1_SHA512
  | RSA_PSS_SHA256
  | RSA_PSS_SHA384
  | RSA_PSS_SHA512
deriving DecidableEq, Repr

/-- The ring verification-scheme constants passed to `signature::verify`
(`signature::RSA_PKCS1_2048_8192_SHA256`, …). -/
inductive VerifyAlg where
  | RSA_PKCS1_2048_8192_SHA256
  | RSA_PKCS1_2048_8192_SHA384
  | RSA_PKCS1_2048_8192_SHA512
  | RSA_PSS_2048_8192_SHA256
  | RSA_PSS_2048_8192_SHA384
  | RSA_PSS_2048_8192_SHA512
deriving DecidableEq, Repr

/-- Abstract model of one parsed `ring::signature::RsaKeyPair`:
`public_modulus_len`, the key's public-key byte encoding, and the
`sign` method writing into a caller buffer.  `signInto a msg buf` returns the
buffer after the call together with the `is_ok` of the returned `Result`;
the per-call `SystemRandom` the source creates is absorbed into the abstract
function.  On failure ring leaves the buffer in an unspecified state, which
the abstract first component covers. -/
structure RsaKeyPair where
  public_modulus_len : Nat
  public_key : Bytes
  signInto : SignAlg → Bytes → Bytes → Bytes × Bool

/-- Abstract model of the free function `ring::signature::verify`:
given a verification scheme, public key bytes, message bytes and signature
bytes, returns `Ok(())` or `Err(Unspecified)` (parse failures and
cryptographic mismatches are both `Err`). -/
structure RingLib where
  ringVerify : VerifyAlg → Bytes → Bytes → Bytes → Except Unit Unit

/-- `pub struct Rsa { ctx: RsaKeyPair }` -/
structure Rsa where
  ctx : RsaKeyPair

/-- `Rsa::public_key` (src/signature.rs:68–70): returns the key pair's
public-key bytes. -/
def Rsa.public_key (self : Rsa) : Bytes :=
  self.ctx.public_key

/-- `Rsa::sign` (src/signature.rs:74–113): allocates a zero buffer of
`public_modulus_len` bytes, then dispatches on the padding variant.  Only the
`RSA_PKCS1_SHA256` arm `.unwrap()`s the result of `ctx.sign` (panic on error,
modelled as `none`); the five other arms discard the `Result` with `let _ =`
and return the buffer regardless of success. -/
def Rsa.sign (self : Rsa) (padAlg : PaddingAlg) (msg : Bytes) : Option Bytes :=
  let signature : Bytes := List.replicate self.ctx.public_modulus_len 0
  match padAlg with
  | PaddingAlg.RSA_PKCS1_SHA256 =>
    match self.ctx.signInto SignAlg.RSA_PKCS1_SHA256 msg signature with
    | (buf, true) => some buf
    | (_, false) => none
  | PaddingAlg.RSA_PKCS1_SHA384 =>
    some (self.ctx.signInto SignAlg.RSA_PKCS1_SHA384 msg signature).1
  | PaddingAlg.RSA_PKCS1_SHA512 =>
    some (self.ctx.signInto SignAlg.RSA_PKCS1_SHA512 msg signature).1
  | PaddingAlg.RSA_PSS_SHA256 =>
    some (self.ctx.signInto SignAlg.RSA_PSS_SHA256 msg signature).1
  | PaddingAlg.RSA_PSS_SHA384 =>
    some (self.ctx.signInto SignAlg.RSA_PSS_SHA384 msg signature).1
  | PaddingAlg.RSA_PSS_SHA512 =>
    some (self.ctx.signInto SignAlg.RSA_PSS_SHA512 msg signature).1

/-- `Rsa::verify` (src/signature.rs:115–147): wraps pk/sig/msg as untrusted
inputs and dispatches on the padding variant to `signature::verify(...)
.is_ok()`.  No `.unwrap()` anywhere: the function is total and returns a
plain boolean.  It never reads `self`'s key material. -/
def Rsa.verify (lib : RingLib) (_self : Rsa) (padAlg : PaddingAlg)
    (msg sig pk : Bytes) : Bool :=
  match padAlg with
  | PaddingAlg.RSA_PKCS1_SHA256 =>
    exceptIsOk (lib.ringVerify VerifyAlg.RSA_PKCS1_2048_8192_SHA256 pk msg sig)
  | PaddingAlg.RSA_PKCS1_SHA384 =>
    exceptIsOk (lib.ringVerify VerifyAlg.RSA_PKCS1_2048_8192_SHA384 pk msg sig)
  | PaddingAlg.RSA_PKCS1_SHA512 =>
    exceptIsOk (lib.ringVerify VerifyAlg.RSA_PKCS1_2048_8192_SHA512 pk msg sig)
  | PaddingAlg.RSA_PSS_SHA256 =>
    exceptIsOk (lib.ringVerify VerifyAlg.RSA_PSS_2048_8192_SHA256 pk msg sig)
  | PaddingAlg.RSA_PSS_SHA384 =>
    exceptIsOk (lib.ringVerify VerifyAlg.RSA_PSS_2048_8192_SHA384 pk msg sig)
  | PaddingAlg.RSA_PSS_SHA512 =>
    exceptIsOk (lib.ringVerify VerifyAlg.RSA_PSS_2048_8192_SHA512 pk msg sig)

/-- The padding-variant → ring signing-scheme mapping realized by the match
arms of `Rsa::sign`. -/
def rsaSignAlg : PaddingAlg → SignAlg
  | PaddingAlg.RSA_PKCS1_SHA256 => SignAlg.RSA_PKCS1_SHA256
  | PaddingAlg.RSA_PKCS1_SHA384 => SignAlg.RSA_PKCS1_SHA384
  | PaddingAlg.RSA_PKCS1_SHA512 => SignAlg.RSA_PKCS1_SHA512
  | PaddingAlg.RSA_PSS_SHA256 => SignAlg.RSA_PSS_SHA256
  | PaddingAlg.RSA_PSS_SHA384 => SignAlg.RSA_PSS_SHA384
  | PaddingAlg.RSA_PSS_SHA512 => SignAlg.RSA_PSS_SHA512

/-- The padding-variant → ring verification-scheme mapping realized by the
match arms of `Rsa::verify`. -/
def rsaVerifyAlg : PaddingAlg → VerifyAlg
  | PaddingAlg.RSA_PKCS1_SHA256 => VerifyAlg.RSA_PKCS1_2048_8192_SHA256
  | PaddingAlg.RSA_PKCS1_SHA384 => VerifyAlg.RSA_PKCS1_2048_8192_SHA384
  | PaddingAlg.RSA_PKCS1_SHA512 => VerifyAlg.RSA_PKCS1_2048_8192_SHA512
  | PaddingAlg.RSA_PSS_SHA256 => VerifyAlg.RSA_PSS_2048_8192_SHA256
  | PaddingAlg.RSA_PSS_SHA384 => VerifyAlg.RSA_PSS_2048_8192_SHA384
  | PaddingAlg.RSA_PSS_SHA512 => VerifyAlg.RSA_PSS_2048_8192_SHA512

/-- Concrete secp256k1 backend used by witness theorems: keys and messages
are their byte strings (rejected unless 32 bytes), public keys are a
prefix-tagged secret key (33 bytes, accepted at lengths 33 and 65), DER
serialization is the identity, and verification checks the structural
equation of the toy sign function. -/
def toySecpCtx : SecpCtx where
  SK := Bytes
  Msg := Bytes
  Sig := Bytes
  PK := Bytes
  secretKey_from_slice := fun b => if b.length = 32 then some b else none
  message_from_slice := fun b => if b.length = 32 then some b else none
  publicKey_from_slice := fun b => if b.length = 33 ∨ b.length = 65 then some b else none
  signature_from_der := fun b => some b
  ctxSign := fun m k => some (m ++ 4 :: k)
  serialize_der := fun s => s
  verify_res := fun m s p => if s = m ++ p then Except.ok () else Except.error ()
  from_secret_key := fun k => 4 :: k
  publicKey_serialize := fun p => p

/-- An ECDSA signer over the toy backend. -/
def toySecp : ECDSASecp256k1 := { ctx := toySecpCtx }

/-- A ring key pair whose sign method succeeds and leaves the buffer as
given; length-preserving, as ring's in-place signing is. -/
def toyKeyPair : RsaKeyPair where
  public_modulus_len := 4
  public_key := [7, 7]
  signInto := fun _ _ buf => (buf, true)

/-- An RSA signer over the toy key pair. -/
def toyRsa : Rsa := { ctx := toyKeyPair }

/-- A ring verification backend accepting exactly the signature the toy key
pair produces. -/
def toyLib : RingLib where
  ringVerify := fun _ _ _ s =>
    if s = [0, 0, 0, 0] then Except.ok () else Except.error ()

/-- A ring key pair whose sign method always fails, leaving the buffer
untouched: exhibits the swallowed error in `Rsa::sign`. -/
def failKeyPair : RsaKeyPair where
  public_modulus_len := 4
  public_key := []
  signInto := fun _ _ buf => (buf, false)

/-- An RSA signer over the failing key pair. -/
def failRsa : Rsa := { ctx := failKeyPair }

/-- Claim C1 (refuted — code bug): for every padding variant except
`RSA_PKCS1_SHA256`, `Rsa::sign` discards the `Result` of the underlying ring
sign with `let _ =`.  Here the backend reports failure (`false`) for
`RSA_PKCS1_SHA384`, yet `Rsa::sign` still returns the untouched zero buffer
as the signature instead of surfacing an error. -/
theorem rsa_sign_swallows_error :
    failRsa.ctx.signInto (rsaSignAlg PaddingAlg.RSA_PKCS1_SHA384) [1, 2]
      (List.replicate 4 0) = (List.replicate 4 0, false) ∧
    Rsa.sign failRsa PaddingAlg.RSA_PKCS1_SHA384 [1, 2]
      = some (List.replicate 4 0) := by
  constructor <;> rfl

/-- Claim C2: for every valid ECDSA (secret key, digest) pair — whenever the
backend parses both inputs, signing succeeds, DER serialization round-trips,
the derived public key's encoding parses back, and the backend verifies its
own signature under the derived public key (the secp256k1 library contract) —
the wrapper's verify of the wrapper's sign output against the derived public
key returns `some true`. -/
theorem ecdsa_sign_then_verify (self : ECDSASecp256k1) (msg sk : Bytes)
    (skv : self.ctx.SK) (m : self.ctx.Msg) (s : self.ctx.Sig)
    (hsk : self.ctx.secretKey_from_slice sk = some skv)
    (hm : self.ctx.message_from_slice msg = some m)
    (hs : self.ctx.ctxSign m skv = some s)
    (hround : self.ctx.signature_from_der (self.ctx.serialize_der s) = some s)
    (hpk : self.ctx.publicKey_from_slice
        (self.ctx.publicKey_serialize (self.ctx.from_secret_key skv))
        = some (self.ctx.from_secret_key skv))
    (hv : self.ctx.verify_res m s (self.ctx.from_secret_key skv) = Except.ok ()) :
    self.sign msg sk = some (self.ctx.serialize_der s) ∧
    self.verify msg (self.ctx.serialize_der s)
      (self.ctx.publicKey_serialize (self.ctx.from_secret_key skv)) = some true := by
  constructor
  · simp [ECDSASecp256k1.sign, hsk, hm, hs]
  · simp [ECDSASecp256k1.verify, hm, hpk, hround, hv, exceptIsOk]

/-- Witness for claim C2 at the spec's concrete scenario shape: a 32-byte
secret key and the 32-byte digest of `0xcd` bytes over the toy backend. -/
theorem ecdsa_sign_then_verify_witness :
    ECDSASecp256k1.sign toySecp (List.replicate 32 205) (List.replicate 32 1)
      = some (List.replicate 32 205 ++ 4 :: List.replicate 32 1) ∧
    ECDSASecp256k1.verify toySecp (List.replicate 32 205)
      (List.replicate 32 205 ++ 4 :: List.replicate 32 1)
      (4 :: List.replicate 32 1) = some true :=
  ecdsa_sign_then_verify toySecp (List.replicate 32 205) (List.replicate 32 1)
    (List.replicate 32 1) (List.replicate 32 205)
    (List.replicate 32 205 ++ 4 :: List.replicate 32 1)
    rfl rfl rfl rfl rfl rfl

/-- Claim C3: whenever the ring backend signs successfully into the zero
buffer under the scheme `Rsa::sign` selects for the padding variant, and the
backend accepts that signature under the matching verification scheme against
the key's own public-key bytes (the ring round-trip contract), `Rsa::sign`
returns that signature and `Rsa::verify` with the same padding variant and
`public_key()` returns `true`. -/
theorem rsa_sign_then_verify (lib : RingLib) (self : Rsa) (pad : PaddingAlg)
    (msg sig : Bytes)
    (hsign : self.ctx.signInto (rsaSignAlg pad) msg
        (List.replicate self.ctx.public_modulus_len 0) = (sig, true))
    (hverify : lib.ringVerify (rsaVerifyAlg pad) (Rsa.public_key self) msg sig
        = Except.ok ()) :
    Rsa.sign self pad msg = some sig ∧
    Rsa.verify lib self pad msg sig (Rsa.public_key self) = true := by
  cases pad <;>
    simp [rsaSignAlg] at hsign <;>
    simp [rsaVerifyAlg] at hverify <;>
    simp [Rsa.sign, Rsa.verify, hsign, hverify, exceptIsOk]

/-- Witness for claim C3: the toy ring backend round-trips, so sign-then-
verify succeeds on a concrete message. -/
theorem rsa_sign_then_verify_witness :
    Rsa.sign toyRsa PaddingAlg.RSA_PKCS1_SHA256 [1] = some [0, 0, 0, 0] ∧
    Rsa.verify toyLib toyRsa PaddingAlg.RSA_PKCS1_SHA256 [1] [0, 0, 0, 0]
      (Rsa.public_key toyRsa) = true :=
  rsa_sign_then_verify toyLib toyRsa PaddingAlg.RSA_PKCS1_SHA256 [1] [0, 0, 0, 0]
    rfl rfl

/-- Claim C4: `Rsa::verify` returns `is_ok` of the backend verdict under the
scheme matching the padding variant, so any cryptographic mismatch the
backend reports as `Err` — wrong padding or hash (in particular verifying
under a different variant than the one used at signing time), tampered
signature or message, wrong key — yields `false`; the wrapper returns a plain
boolean and has no error path. -/
theorem rsa_verify_mismatch_false (lib : RingLib) (self : Rsa) (pad : PaddingAlg)
    (msg sig pk : Bytes)
    (hmismatch : lib.ringVerify (rsaVerifyAlg pad) pk msg sig = Except.error ()) :
    Rsa.verify lib self pad msg sig pk = false := by
  cases pad <;>
    simp [rsaVerifyAlg] at hmismatch <;>
    simp [Rsa.verify, hmismatch, exceptIsOk]

/-- Witness for claim C4: the toy backend rejects a tampered signature and
`Rsa::verify` reports `false`. -/
theorem rsa_verify_mismatch_false_witness :
    Rsa.verify toyLib toyRsa PaddingAlg.RSA_PSS_SHA256 [1] [9] [2] = false :=
  rsa_verify_mismatch_false toyLib toyRsa PaddingAlg.RSA_PSS_SHA256 [1] [9] [2] rfl

/-- Every signature `Rsa::sign` returns is the first component of the
backend's answer on the zero buffer of modulus length, whatever the padding
variant. -/
theorem rsa_sign_eq_signInto (self : Rsa) (pad : PaddingAlg) (msg sig : Bytes)
    (hsig : Rsa.sign self pad msg = some sig) :
    sig = (self.ctx.signInto (rsaSignAlg pad) msg
        (List.replicate self.ctx.public_modulus_len 0)).1 := by
  cases pad
  case RSA_PKCS1_SHA256 =>
    simp only [Rsa.sign] at hsig
    split at hsig
    next buf heq =>
      rw [rsaSignAlg, heq]
      exact (Option.some.inj hsig).symm
    next => exact absurd hsig (by simp)
  all_goals (simp [Rsa.sign, rsaSignAlg] at hsig ⊢; exact hsig.symm)

/-- Claim C5: under the ring contract that in-place signing preserves the
buffer's length, every signature a successful `Rsa::sign` call returns is
exactly `public_modulus_len` bytes long. -/
theorem rsa_sign_length (self : Rsa) (pad : PaddingAlg) (msg sig : Bytes)
    (hlen : ∀ a m buf, ((self.ctx.signInto a m buf).1).length = buf.length)
    (hsig : Rsa.sign self pad msg = some sig) :
    sig.length = self.ctx.public_modulus_len := by
  rw [rsa_sign_eq_signInto self pad msg sig hsig, hlen, List.length_replicate]

/-- Witness for claim C5: the toy key pair's sign is length-preserving and a
concrete signature has the modulus length. -/
theorem rsa_sign_length_witness :
    ([0, 0, 0, 0] : Bytes).length = toyRsa.ctx.public_modulus_len :=
  rsa_sign_length toyRsa PaddingAlg.RSA_PSS_SHA512 [3] [0, 0, 0, 0]
    (fun _ _ _ => rfl) rfl

/-- Claim C6: given the secp256k1 length contract (`SecretKey::from_slice`
and `Message::from_slice` reject byte strings that are not exactly 32 bytes),
an ECDSA sign call with a digest or secret key of the wrong length, and a
verify call with a digest of the wrong length, abort with `none` (the
`.unwrap()` abort, an outcome distinct from every `some` boolean or
signature): no input is silently truncated or padded. -/
theorem ecdsa_bad_length_rejected (self : ECDSASecp256k1)
    (hskc : ∀ b : Bytes, b.length ≠ 32 → self.ctx.secretKey_from_slice b = none)
    (hmc : ∀ b : Bytes, b.length ≠ 32 → self.ctx.message_from_slice b = none)
    (msg sk sig pk : Bytes) :
    (msg.length ≠ 32 ∨ sk.length ≠ 32 → self.sign msg sk = none) ∧
    (msg.length ≠ 32 → self.verify msg sig pk = none) := by
  constructor
  · rintro (hmsg | hsk)
    · cases h : self.ctx.secretKey_from_slice sk with
      | none => simp [ECDSASecp256k1.sign, h]
      | some skv => simp [ECDSASecp256k1.sign, h, hmc msg hmsg]
    · simp [ECDSASecp256k1.sign, hskc sk hsk]
  · intro hmsg
    simp [ECDSASecp256k1.verify, hmc msg hmsg]

/-- Witness for claim C6: a 3-byte digest is rejected by both sign and verify
over the toy backend. -/
theorem ecdsa_bad_length_rejected_witness :
    ECDSASecp256k1.sign toySecp [1, 2, 3] (List.replicate 32 1) = none ∧
    ECDSASecp256k1.verify toySecp [1, 2, 3] [9] (4 :: List.replicate 32 1) = none :=
  ⟨(ecdsa_bad_length_rejected toySecp
      (fun b hb => by simp [toySecp, toySecpCtx, hb])
      (fun b hb => by simp [toySecp, toySecpCtx, hb])
      [1, 2, 3] (List.replicate 32 1) [9] (4 :: List.replicate 32 1)).1
      (Or.inl (by decide)),
   (ecdsa_bad_length_rejected toySecp
      (fun b hb => by simp [toySecp, toySecpCtx, hb])
      (fun b hb => by simp [toySecp, toySecpCtx, hb])
      [1, 2, 3] (List.replicate 32 1) [9] (4 :: List.replicate 32 1)).2
      (by decide)⟩

/-- Claim C7: an ECDSA verify call whose public key or signature fails
backend parsing aborts with `none` (the construction-time `.unwrap()` abort),
never the verdict `some false`; conversely `some false` only arises when
message, public key and signature all parsed and the backend's verification
reported a semantic non-match. -/
theorem ecdsa_malformed_is_error (self : ECDSASecp256k1) (msg sig pk : Bytes) :
    ((self.ctx.publicKey_from_slice pk = none ∨
        self.ctx.signature_from_der sig = none) →
      self.verify msg sig pk = none) ∧
    (self.verify msg sig pk = some false →
      ∃ m p s, self.ctx.message_from_slice msg = some m ∧
        self.ctx.publicKey_from_slice pk = some p ∧
        self.ctx.signature_from_der sig = some s ∧
        self.ctx.verify_res m s p = Except.error ()) := by
  constructor
  · rintro (hpk | hsig)
    · cases hm : self.ctx.message_from_slice msg with
      | none => simp [ECDSASecp256k1.verify, hm]
      | some m => simp [ECDSASecp256k1.verify, hm, hpk]
    · cases hm : self.ctx.message_from_slice msg with
      | none => simp [ECDSASecp256k1.verify, hm]
      | some m =>
        cases hp : self.ctx.publicKey_from_slice pk with
        | none => simp [ECDSASecp256k1.verify, hm, hp]
        | some p => simp [ECDSASecp256k1.verify, hm, hp, hsig]
  · intro hfalse
    cases hm : self.ctx.message_from_slice msg with
    | none => simp [ECDSASecp256k1.verify, hm] at hfalse
    | some m =>
      cases hp : self.ctx.publicKey_from_slice pk with
      | none => simp [ECDSASecp256k1.verify, hm, hp] at hfalse
      | some p =>
        cases hs : self.ctx.signature_from_der sig with
        | none => simp [ECDSASecp256k1.verify, hm, hp, hs] at hfalse
        | some s =>
          refine ⟨m, p, s, rfl, rfl, rfl, ?_⟩
          simp [ECDSASecp256k1.verify, hm, hp, hs] at hfalse
          cases hv : self.ctx.verify_res m s p with
          | ok u => rw [hv, exceptIsOk] at hfalse; exact absurd hfalse (by simp)
          | error e => cases e; rfl

/-- Witness for claim C7: a 1-byte public key fails parsing over the toy
backend and verify aborts rather than answering `some false`. -/
theorem ecdsa_malformed_is_error_witness :
    ECDSASecp256k1.verify toySecp (List.replicate 32 205) [9] [2] = none :=
  (ecdsa_malformed_is_error toySecp (List.replicate 32 205) [9] [2]).1
    (Or.inl rfl)

/-- One call against an `Rsa` signer. -/
inductive RsaOp where
  | opSign : PaddingAlg → Bytes → RsaOp
  | opVerify : PaddingAlg → Bytes → Bytes → Bytes → RsaOp
  | opPublicKey : RsaOp

/-- Result of one `Rsa` call. -/
inductive RsaOut where
  | outSig : Option Bytes → RsaOut
  | outBool : Bool → RsaOut
  | outBytes : Bytes → RsaOut

/-- One `Rsa` call with explicit state passing.  Every source method takes
`&self` and the struct has no interior mutability, so each call hands back
the state it was handed. -/
def Rsa.step (lib : RingLib) (self : Rsa) : RsaOp → Rsa × RsaOut
  | RsaOp.opSign pad msg => (self, RsaOut.outSig (Rsa.sign self pad msg))
  | RsaOp.opVerify pad msg sig pk =>
    (self, RsaOut.outBool (Rsa.verify lib self pad msg sig pk))
  | RsaOp.opPublicKey => (self, RsaOut.outBytes (Rsa.public_key self))

/-- The signer state after a sequence of `Rsa` calls. -/
def Rsa.run (lib : RingLib) (self : Rsa) (ops : List RsaOp) : Rsa :=
  ops.foldl (fun s op => (Rsa.step lib s op).1) self

/-- One call against an `ECDSASecp256k1` signer. -/
inductive EcdsaOp where
  | opSign : Bytes → Bytes → EcdsaOp
  | opVerify : Bytes → Bytes → Bytes → EcdsaOp

/-- One `ECDSASecp256k1` call with explicit state passing; both source
methods take `&self`. -/
def ECDSASecp256k1.step (self : ECDSASecp256k1) :
    EcdsaOp → ECDSASecp256k1 × Option (Bytes ⊕ Bool)
  | EcdsaOp.opSign msg sk => (self, (self.sign msg sk).map Sum.inl)
  | EcdsaOp.opVerify msg sig pk => (self, (self.verify msg sig pk).map Sum.inr)

/-- The signer state after a sequence of `ECDSASecp256k1` calls. -/
def ECDSASecp256k1.run (self : ECDSASecp256k1) (ops : List EcdsaOp) :
    ECDSASecp256k1 :=
  ops.foldl (fun s op => (ECDSASecp256k1.step s op).1) self

/-- Claim C8: both signer types are immutable after construction: every
single sign/verify/public_key call, and hence every sequence of such calls,
leaves the signer state exactly as it was. -/
theorem signer_state_unchanged :
    (∀ (lib : RingLib) (r : Rsa) (op : RsaOp), (Rsa.step lib r op).1 = r) ∧
    (∀ (lib : RingLib) (r : Rsa) (ops : List RsaOp), Rsa.run lib r ops = r) ∧
    (∀ (e : ECDSASecp256k1) (op : EcdsaOp), (ECDSASecp256k1.step e op).1 = e) ∧
    (∀ (e : ECDSASecp256k1) (ops : List EcdsaOp), ECDSASecp256k1.run e ops = e) := by
  refine ⟨fun lib r op => ?_, fun lib r ops => ?_, fun e op => ?_, fun e ops => ?_⟩
  · cases op <;> rfl
  · induction ops generalizing r with
    | nil => rfl
    | cons op ops ih =>
      have h1 : (Rsa.step lib r op).1 = r := by cases op <;> rfl
      calc Rsa.run lib r (op :: ops)
          = Rsa.run lib (Rsa.step lib r op).1 ops := rfl
        _ = Rsa.run lib r ops := by rw [h1]
        _ = r := ih r
  · cases op <;> rfl
  · induction ops generalizing e with
    | nil => rfl
    | cons op ops ih =>
      have h1 : (ECDSASecp256k1.step e op).1 = e := by cases op <;> rfl
      calc ECDSASecp256k1.run e (op :: ops)
          = ECDSASecp256k1.run (ECDSASecp256k1.step e op).1 ops := rfl
        _ = ECDSASecp256k1.run e ops := by rw [h1]
        _ = e := ih e

/-- Claim C9: `Rsa::verify` never reads the signer's key material: two RSA
signer states built from different key pairs produce identical verify
verdicts on identical arguments. -/
theorem rsa_verify_ignores_private_key (lib : RingLib) (r1 r2 : Rsa)
    (pad : PaddingAlg) (msg sig pk : Bytes) :
    Rsa.verify lib r1 pad msg sig pk = Rsa.verify lib r2 pad msg sig pk := by
  cases pad <;> rfl

/-- Claim C10: `Rsa::verify` is total over arbitrary byte inputs: for every
padding variant and all byte strings (malformed or empty included) it equals
`is_ok` of the backend verdict under the matching scheme — a plain boolean
with no panic or error path — and whenever the backend reports an error
(parse failure or mismatch) the result is `false`. -/
theorem rsa_verify_total (lib : RingLib) (self : Rsa) (pad : PaddingAlg)
    (msg sig pk : Bytes) :
    Rsa.verify lib self pad msg sig pk
      = exceptIsOk (lib.ringVerify (rsaVerifyAlg pad) pk msg sig) ∧
    (lib.ringVerify (rsaVerifyAlg pad) pk msg sig = Except.error () →
      Rsa.verify lib self pad msg sig pk = false) := by
  constructor
  · cases pad <;> rfl
  · intro herr
    cases pad <;>
      simp [rsaVerifyAlg] at herr <;>
      simp [Rsa.verify, herr, exceptIsOk]

/-- Witness for claim C10 on empty and malformed inputs: the toy backend
rejects them and `Rsa::verify` answers `false`. -/
theorem rsa_verify_total_witness :
    Rsa.verify toyLib toyRsa PaddingAlg.RSA_PKCS1_SHA512 [] [5] [] = false :=
  (rsa_verify_total toyLib toyRsa PaddingAlg.RSA_PKCS1_SHA512 [] [5] []).2 rfl
